import Mathlib

/-!
Shallow embedding of the ESP32-S3 hand-gesture recognition firmware
(src/app_main.cpp): the center-crop + nearest-neighbor resize
preprocessor `crop_resize_224` and the frame-driven orchestration loop
in `app_main`, modelled as a pure trace-producing function per loop
iteration with the external collaborators (camera driver, JPEG decoder,
heap allocator, detector, classifier) supplied as an oracle environment.
-/

namespace HandGesture

/-- The model input side length; `const int target = 224` in
`crop_resize_224`. -/
def target : Nat := 224

/-- Pixel layout tags of `dl::image::img_t::pix_type`.  `zeroInit` stands
for the value-initialized state produced by `dst = {}` before any field is
assigned. -/
inductive PixType where
  | zeroInit
  | RGB888
deriving DecidableEq

/-- `dl::image::img_t`: a pixel buffer with dimensions, layout tag and a
possibly-null data pointer.  The backing bytes are modelled as a flat
`List Nat`; `data = none` models a null pointer. -/
structure ImgT where
  width : Int
  height : Int
  pixType : PixType
  data : Option (List Nat)
deriving DecidableEq

/-- The two heap pools named by the capability masks passed to
`heap_caps_malloc`: `spiram` is `MALLOC_CAP_SPIRAM | MALLOC_CAP_8BIT`
(the fast/abundant external pool tried first), `internal` is plain
`MALLOC_CAP_8BIT` (the fallback pool). -/
inductive Pool where
  | spiram
  | internal
deriving DecidableEq

/-- Allocation oracle: whether `heap_caps_malloc` succeeds in each pool. -/
structure AllocEnv where
  spiramOk : Bool
  internalOk : Bool
deriving DecidableEq

/-- `heap_caps_malloc` for a 224*224*3-byte request against a given pool,
abstracted to its success bit. -/
def heap_caps_malloc (env : AllocEnv) (p : Pool) : Bool :=
  match p with
  | Pool.spiram => env.spiramOk
  | Pool.internal => env.internalOk

/-- The source byte index read by the sampling loop of `crop_resize_224`
for destination pixel `(x, y)`: the code computes
`crop = (w < h) ? w : h`, `x0 = (w - crop) / 2`, `y0 = (h - crop) / 2`,
`sy = y0 + (y * crop) / target`, `sx = x0 + (x * crop) / target` and
reads at `(sy * w + sx) * 3` plus the channel offset. -/
def srcSampleIdx (w h x y : Nat) : Nat :=
  let crop := if w < h then w else h
  let x0 := (w - crop) / 2
  let y0 := (h - crop) / 2
  let sy := y0 + (y * crop) / target
  let sx := x0 + (x * crop) / target
  (sy * w + sx) * 3

/-- The three channel bytes copied by the inner loop body of
`crop_resize_224` for destination pixel `(x, y)`:
`dst[didx+0] = src[sidx+0]; dst[didx+1] = src[sidx+1];
dst[didx+2] = src[sidx+2]`. -/
def cropResizeBlock (src : List Nat) (w h y x : Nat) : List Nat :=
  let sidx := srcSampleIdx w h x y
  [src.getD sidx 0, src.getD (sidx + 1) 0, src.getD (sidx + 2) 0]

/-- One destination row `y` of the sampling loop: the inner
`for (x = 0; x < target; ++x)` loop. -/
def cropResizeRow (src : List Nat) (w h y : Nat) : List Nat :=
  (List.range target).flatMap (cropResizeBlock src w h y)

/-- The destination byte buffer filled by the double loop of
`crop_resize_224`: row-major over destination pixels, copying the three
channel bytes from the nearest-neighbor source sample. -/
def cropResizeData (src : List Nat) (w h : Nat) : List Nat :=
  (List.range target).flatMap (cropResizeRow src w h)

/-- `crop_resize_224` from src/app_main.cpp, instrumented with the list of
pools in the order `heap_caps_malloc` is attempted.  The destination is
value-initialized, its dimensions and pixel type are set before
allocation, the SPIRAM pool is tried first and the internal pool only if
that returned null; if both return null the image is returned with a null
data pointer, otherwise the sampling loop fills the buffer. -/
def crop_resize_224 (env : AllocEnv) (src : ImgT) : ImgT × List Pool :=
  let fastOk := heap_caps_malloc env Pool.spiram
  let attempts := if fastOk then [Pool.spiram] else [Pool.spiram, Pool.internal]
  let allocOk := fastOk || heap_caps_malloc env Pool.internal
  if allocOk then
    ({ width := target, height := target, pixType := PixType.RGB888,
       data := some (cropResizeData (src.data.getD []) src.width.toNat src.height.toNat) },
     attempts)
  else
    ({ width := target, height := target, pixType := PixType.RGB888,
       data := none }, attempts)

/-- `camera_fb_t`: a driver-owned compressed frame buffer. -/
structure Frame where
  buf : List Nat
  len : Nat
deriving DecidableEq

/-- A detection produced by `HandDetect::run`, opaque to the loop. -/
structure Detection where
  tag : Nat
deriving DecidableEq

/-- A classification result from `HandGestureRecognizer::recognize`,
opaque to the loop except that each one is reported. -/
structure GestureResult where
  tag : Nat
deriving DecidableEq

/-- Which of the two orchestrator-owned buffers `heap_caps_free` is
called on: the decoded RawImage (`rgb.data`) or the NormalizedImage
(`img224.data`). -/
inductive BufKind where
  | raw
  | normalized
deriving DecidableEq

/-- Observable actions of one loop iteration, in program order. -/
inductive Event where
  | cameraFbGet (success : Bool)
  | swDecodeJpeg
  | cameraFbReturn
  | heapCapsFree (which : BufKind)
  | handDetectRun
  | gestureRecognize
  | logReport
  | vTaskDelay (ms : Nat)
deriving DecidableEq

/-- Retry delay after `esp_camera_fb_get` returns null: `pdMS_TO_TICKS(100)`. -/
def acquireRetryDelayMs : Nat := 100

/-- Delay after a preprocessing allocation failure: `pdMS_TO_TICKS(100)`. -/
def allocFailDelayMs : Nat := 100

/-- Backoff delay after an empty detection result: `pdMS_TO_TICKS(300)`. -/
def emptyDetectionDelayMs : Nat := 300

/-- Steady-state inter-frame delay after a fully processed frame:
`pdMS_TO_TICKS(2000)`. -/
def steadyStateDelayMs : Nat := 2000

/-- Delay inside each warm-up iteration: `pdMS_TO_TICKS(50)`. -/
def warmupDelayMs : Nat := 50

/-- The oracle environment for one loop iteration: what the external
collaborators return when called. -/
structure IterEnv where
  fb : Option Frame
  decode : ImgT
  alloc : AllocEnv
  detections : List Detection
  clsResults : List GestureResult

/-- The decode-failure test of the loop:
`!rgb.data || rgb.width <= 0 || rgb.height <= 0`. -/
def decodeFailed (rgb : ImgT) : Bool :=
  rgb.data.isNone || decide (rgb.width ≤ 0) || decide (rgb.height ≤ 0)

/-- The event trace of one iteration of the `while (true)` loop of
`app_main`, following the source line by line: acquire, decode, return
the frame, the decode-failure early exit (freeing partial RawImage data
only when non-null), preprocess, free the RawImage, the
allocation-failure early exit, detect, the empty-detection early exit,
classify and report, free the NormalizedImage, pace. -/
def loopIter (env : IterEnv) : List Event :=
  match env.fb with
  | none => [Event.cameraFbGet false, Event.vTaskDelay acquireRetryDelayMs]
  | some _ =>
    let rgb := env.decode
    let head := [Event.cameraFbGet true, Event.swDecodeJpeg, Event.cameraFbReturn]
    if decodeFailed rgb then
      head ++ (if rgb.data.isSome then [Event.heapCapsFree BufKind.raw] else [])
    else
      let img224 := (crop_resize_224 env.alloc rgb).1
      let head2 := head ++ [Event.heapCapsFree BufKind.raw]
      if img224.data.isNone then
        head2 ++ [Event.vTaskDelay allocFailDelayMs]
      else
        let head3 := head2 ++ [Event.handDetectRun]
        if env.detections.isEmpty then
          head3 ++ [Event.heapCapsFree BufKind.normalized,
                    Event.vTaskDelay emptyDetectionDelayMs]
        else
          head3 ++ [Event.gestureRecognize]
               ++ env.clsResults.map (fun _ => Event.logReport)
               ++ [Event.heapCapsFree BufKind.normalized,
                   Event.vTaskDelay steadyStateDelayMs]

/-- The event trace of one iteration of the warm-up loop run before the
main loop: acquire, return the frame if acquisition succeeded, delay. -/
def warmupIter (fb : Option Frame) : List Event :=
  [Event.cameraFbGet fb.isSome]
    ++ (if fb.isSome then [Event.cameraFbReturn] else [])
    ++ [Event.vTaskDelay warmupDelayMs]

/-- The source byte index as the SPEC formulates it: `crop = min(width,
height)`, `x0 = (width - crop) / 2`, `y0 = (height - crop) / 2`,
`sx = x0 + (x * crop) / 224`, `sy = y0 + (y * crop) / 224`, byte offset
`(sy * width + sx) * 3`.  Stated from the spec text, to be compared with
the source-derived `srcSampleIdx`. -/
def specSampleIdx (w h x y : Nat) : Nat :=
  (((h - min w h) / 2 + (y * min w h) / 224) * w
    + ((w - min w h) / 2 + (x * min w h) / 224)) * 3

/-- A concrete compressed frame used to instantiate the oracle. -/
def sampleFrame : Frame := { buf := [255, 216, 255, 217], len := 4 }

/-- A concrete 2 by 2 RGB888 decoded image. -/
def sampleRawBuf : List Nat :=
  [10, 20, 30, 40, 50, 60, 70, 80, 90, 100, 110, 120]

/-- A concrete well-formed decode result. -/
def sampleRaw : ImgT :=
  { width := 2, height := 2, pixType := PixType.RGB888,
    data := some sampleRawBuf }

/-- A decode-failure marker: null data and non-positive dimensions. -/
def failedDecode : ImgT :=
  { width := 0, height := 0, pixType := PixType.zeroInit, data := none }

/-- Allocation oracle with both pools available. -/
def bothPools : AllocEnv := { spiramOk := true, internalOk := true }

/-- Allocation oracle with only the internal fallback pool available. -/
def onlyInternal : AllocEnv := { spiramOk := false, internalOk := true }

/-- Allocation oracle with both pools exhausted. -/
def noPools : AllocEnv := { spiramOk := false, internalOk := false }

/-- An iteration oracle for a fully successful frame. -/
def sampleSuccessEnv : IterEnv :=
  { fb := some sampleFrame, decode := sampleRaw, alloc := bothPools,
    detections := [{ tag := 0 }], clsResults := [{ tag := 1 }] }

/-- An iteration oracle whose decode fails. -/
def sampleDecodeFailEnv : IterEnv :=
  { fb := some sampleFrame, decode := failedDecode, alloc := bothPools,
    detections := [], clsResults := [] }

/-- An iteration oracle whose detector finds nothing. -/
def sampleEmptyDetEnv : IterEnv :=
  { fb := some sampleFrame, decode := sampleRaw, alloc := bothPools,
    detections := [], clsResults := [] }

/-- An iteration oracle whose preprocessing allocation fails twice. -/
def sampleAllocFailEnv : IterEnv :=
  { fb := some sampleFrame, decode := sampleRaw, alloc := noPools,
    detections := [], clsResults := [] }

/-- A 224 by 224 all-sevens byte buffer for the identity case. -/
def idBuf : List Nat := List.replicate (224 * 224 * 3) 7

/-- A concrete 224 by 224 RGB888 image for the identity case. -/
def src224 : ImgT :=
  { width := 224, height := 224, pixType := PixType.RGB888,
    data := some idBuf }

/-- The source's conditional-expression crop agrees with the spec's
`min`, and the two sample-index formulations coincide. -/
theorem srcSampleIdx_eq_specSampleIdx (w h x y : Nat) :
    srcSampleIdx w h x y = specSampleIdx w h x y := by
  have hmin : (if w < h then w else h) = min w h := by split <;> omega
  simp only [srcSampleIdx, specSampleIdx, target, hmin]

/-- Length of a flatMap over an initial range when every block has the
same length. -/
theorem length_flatMap_range_const {α : Type} (f : Nat → List α) (k : Nat)
    (hf : ∀ i, (f i).length = k) :
    ∀ n, ((List.range n).flatMap f).length = n * k := by
  intro n
  induction n with
  | zero => simp
  | succ n ih =>
    rw [List.range_succ, List.flatMap_append, List.length_append, ih]
    simp [hf, Nat.succ_mul]

/-- `getD` on an append, left part. -/
theorem getD_append_left {α : Type} (l₁ l₂ : List α) (n : Nat) (d : α)
    (h : n < l₁.length) : (l₁ ++ l₂).getD n d = l₁.getD n d := by
  simp [List.getD_eq_getElem?_getD, List.getElem?_append, h]

/-- `getD` on an append, right part. -/
theorem getD_append_right {α : Type} (l₁ l₂ : List α) (n : Nat) (d : α)
    (h : l₁.length ≤ n) : (l₁ ++ l₂).getD n d = l₂.getD (n - l₁.length) d := by
  simp [List.getD_eq_getElem?_getD, List.getElem?_append_right h]

/-- Indexing a flatMap over an initial range when every block has the
same length: position `i * k + j` falls in block `i` at offset `j`. -/
theorem getD_flatMap_range_const {α : Type} (f : Nat → List α) (k : Nat) (d : α)
    (hf : ∀ i, (f i).length = k) :
    ∀ n i j, i < n → j < k →
      ((List.range n).flatMap f).getD (i * k + j) d = (f i).getD j d := by
  intro n
  induction n with
  | zero => intro i j hi _; omega
  | succ n ih =>
    intro i j hi hj
    rw [List.range_succ, List.flatMap_append]
    have hlen : ((List.range n).flatMap f).length = n * k :=
      length_flatMap_range_const f k hf n
    by_cases hcase : i < n
    · have hidx : i * k + j < n * k := by
        have h1 : (i + 1) * k ≤ n * k := Nat.mul_le_mul_right k (by omega)
        have h2 : (i + 1) * k = i * k + k := by ring
        omega
      rw [getD_append_left _ _ _ _ (by omega), ih i j hcase hj]
    · have hieq : i = n := by omega
      subst hieq
      rw [getD_append_right _ _ _ _ (by omega), hlen]
      simp

/-- Each inner-loop body emits exactly three bytes. -/
theorem cropResizeBlock_length (src : List Nat) (w h y x : Nat) :
    (cropResizeBlock src w h y x).length = 3 := rfl

/-- Each destination row holds exactly `target * 3` bytes. -/
theorem cropResizeRow_length (src : List Nat) (w h y : Nat) :
    (cropResizeRow src w h y).length = target * 3 :=
  length_flatMap_range_const (cropResizeBlock src w h y) 3
    (fun x => cropResizeBlock_length src w h y x) target

/-- The preprocessor's destination buffer always has exactly
`target * target * 3` bytes. -/
theorem cropResizeData_length (src : List Nat) (w h : Nat) :
    (cropResizeData src w h).length = target * target * 3 := by
  unfold cropResizeData
  rw [length_flatMap_range_const (cropResizeRow src w h) (target * 3)
      (fun y => cropResizeRow_length src w h y) target]
  ring

/-- Pointwise characterization of the preprocessor's destination buffer:
the byte at destination offset `(y * target + x) * 3 + c` is the source
byte at `srcSampleIdx w h x y + c`. -/
theorem cropResizeData_getD (src : List Nat) (w h x y c : Nat)
    (hx : x < target) (hy : y < target) (hc : c < 3) :
    (cropResizeData src w h).getD ((y * target + x) * 3 + c) 0
      = src.getD (srcSampleIdx w h x y + c) 0 := by
  unfold cropResizeData
  have hidx : (y * target + x) * 3 + c = y * (target * 3) + (x * 3 + c) := by ring
  rw [hidx,
    getD_flatMap_range_const (cropResizeRow src w h) (target * 3) 0
      (fun i => cropResizeRow_length src w h i)
      target y (x * 3 + c) hy (by omega)]
  unfold cropResizeRow
  rw [getD_flatMap_range_const (cropResizeBlock src w h y) 3 0
      (fun i => cropResizeBlock_length src w h y i) target x c hx hc]
  unfold cropResizeBlock
  interval_cases c <;> simp

/-- Flattened-index bound: a sample at pixel `(sx, sy)` strictly inside a
`w` by `h` image reads bytes strictly inside the `w * h * 3`-byte buffer. -/
theorem sampleFlat_lt (w h sx sy c : Nat) (hsx : sx < w) (hsy : sy < h)
    (hc : c < 3) : (sy * w + sx) * 3 + c < w * h * 3 := by
  have h1 : sy * w + sx + 1 ≤ h * w := by
    have h2 : (sy + 1) * w ≤ h * w := Nat.mul_le_mul_right w (by omega)
    have h3 : (sy + 1) * w = sy * w + w := by ring
    linarith
  calc (sy * w + sx) * 3 + c < (sy * w + sx + 1) * 3 := by linarith
    _ ≤ h * w * 3 := Nat.mul_le_mul_right 3 h1
    _ = w * h * 3 := by ring

/-- Abstracted sample-coordinate bound: once the scaled offsets `A` and
`B` are known to be below the crop side, the sampled byte index is in
bounds. -/
theorem srcSampleIdx_abstract_lt (w h A B c : Nat)
    (hA : A < min w h) (hB : B < min w h) (hc : c < 3) :
    (((h - min w h) / 2 + B) * w + ((w - min w h) / 2 + A)) * 3 + c
      < w * h * 3 := by
  have hsx : (w - min w h) / 2 + A < w := by omega
  have hsy : (h - min w h) / 2 + B < h := by omega
  exact sampleFlat_lt w h _ _ c hsx hsy hc

/-- The scaled nearest-neighbor offset `(t * crop) / target` stays below
`crop` for `t < target` and positive `crop`. -/
theorem scaled_offset_lt (t crop : Nat) (ht : t < target) (hc : 1 ≤ crop) :
    t * crop / target < crop := by
  apply Nat.div_lt_of_lt_mul
  have h1 : (t + 1) * crop ≤ target * crop := Nat.mul_le_mul_right _ (by omega)
  nlinarith

/-- Every byte index read by the sampling loop lies strictly inside the
source buffer. -/
theorem srcSampleIdx_lt (w h x y c : Nat) (hw : 1 ≤ w) (hh : 1 ≤ h)
    (hx : x < target) (hy : y < target) (hc : c < 3) :
    srcSampleIdx w h x y + c < w * h * 3 := by
  have hmin : (if w < h then w else h) = min w h := by split <;> omega
  have hc1 : 1 ≤ min w h := by omega
  have hdx : x * min w h / target < min w h := scaled_offset_lt x _ hx hc1
  have hdy : y * min w h / target < min w h := scaled_offset_lt y _ hy hc1
  simp only [srcSampleIdx, hmin]
  exact srcSampleIdx_abstract_lt w h _ _ c hdx hdy hc

/-- On allocation success (either pool), `crop_resize_224` returns a
224 by 224 RGB888 image whose buffer is `cropResizeData`. -/
theorem crop_resize_224_success (env : AllocEnv) (src : ImgT)
    (halloc : env.spiramOk = true ∨ env.internalOk = true) :
    (crop_resize_224 env src).1 =
      { width := 224, height := 224, pixType := PixType.RGB888,
        data := some (cropResizeData (src.data.getD [])
                        src.width.toNat src.height.toNat) } := by
  rcases halloc with h | h
  · simp [crop_resize_224, heap_caps_malloc, h, target]
  · cases hsp : env.spiramOk
    · simp [crop_resize_224, heap_caps_malloc, hsp, h, target]
    · simp [crop_resize_224, heap_caps_malloc, hsp, target]

/-- On double allocation failure, `crop_resize_224` returns a 224 by 224
RGB888 image with a null data pointer. -/
theorem crop_resize_224_failure (env : AllocEnv) (src : ImgT)
    (h1 : env.spiramOk = false) (h2 : env.internalOk = false) :
    (crop_resize_224 env src).1 =
      { width := 224, height := 224, pixType := PixType.RGB888,
        data := none } := by
  simp [crop_resize_224, heap_caps_malloc, h1, h2, target]

/-- The pools attempted by `crop_resize_224`, in order: always SPIRAM
first, the internal pool exactly when the SPIRAM attempt failed. -/
theorem crop_resize_224_attempts (env : AllocEnv) (src : ImgT) :
    (crop_resize_224 env src).2 =
      if env.spiramOk then [Pool.spiram] else [Pool.spiram, Pool.internal] := by
  cases h : env.spiramOk <;>
    simp [crop_resize_224, heap_caps_malloc, h, apply_ite Prod.snd]

/-- Trace of an iteration whose acquisition fails. -/
theorem loopIter_acquireFail (env : IterEnv) (h : env.fb = none) :
    loopIter env
      = [Event.cameraFbGet false, Event.vTaskDelay acquireRetryDelayMs] := by
  simp [loopIter, h]

/-- Trace of an iteration whose decode fails: the frame is still
returned, partial RawImage data is freed when non-null, and the
iteration ends there. -/
theorem loopIter_decodeFail (env : IterEnv) (f : Frame)
    (hf : env.fb = some f) (hd : decodeFailed env.decode = true) :
    loopIter env
      = [Event.cameraFbGet true, Event.swDecodeJpeg, Event.cameraFbReturn]
        ++ (if env.decode.data.isSome then [Event.heapCapsFree BufKind.raw]
            else []) := by
  simp [loopIter, hf, hd]

/-- Trace of an iteration whose preprocessing allocation fails in both
pools: the frame is dropped after a delay. -/
theorem loopIter_allocFail (env : IterEnv) (f : Frame)
    (hf : env.fb = some f) (hd : decodeFailed env.decode = false)
    (h1 : env.alloc.spiramOk = false) (h2 : env.alloc.internalOk = false) :
    loopIter env
      = [Event.cameraFbGet true, Event.swDecodeJpeg, Event.cameraFbReturn,
         Event.heapCapsFree BufKind.raw, Event.vTaskDelay allocFailDelayMs] := by
  simp [loopIter, hf, hd, crop_resize_224_failure env.alloc env.decode h1 h2]

/-- Trace of an iteration that reaches detection and finds nothing:
the NormalizedImage is freed and the backoff delay is applied. -/
theorem loopIter_emptyDetection (env : IterEnv) (f : Frame)
    (hf : env.fb = some f) (hd : decodeFailed env.decode = false)
    (halloc : env.alloc.spiramOk = true ∨ env.alloc.internalOk = true)
    (hdet : env.detections = []) :
    loopIter env
      = [Event.cameraFbGet true, Event.swDecodeJpeg, Event.cameraFbReturn,
         Event.heapCapsFree BufKind.raw, Event.handDetectRun,
         Event.heapCapsFree BufKind.normalized,
         Event.vTaskDelay emptyDetectionDelayMs] := by
  simp [loopIter, hf, hd, hdet,
    crop_resize_224_success env.alloc env.decode halloc]

/-- Trace of a fully processed frame: classify, report each result,
free the NormalizedImage, steady-state delay. -/
theorem loopIter_fullSuccess (env : IterEnv) (f : Frame)
    (hf : env.fb = some f) (hd : decodeFailed env.decode = false)
    (halloc : env.alloc.spiramOk = true ∨ env.alloc.internalOk = true)
    (hdet : env.detections ≠ []) :
    loopIter env
      = [Event.cameraFbGet true, Event.swDecodeJpeg, Event.cameraFbReturn,
         Event.heapCapsFree BufKind.raw, Event.handDetectRun,
         Event.gestureRecognize]
        ++ env.clsResults.map (fun _ => Event.logReport)
        ++ [Event.heapCapsFree BufKind.normalized,
            Event.vTaskDelay steadyStateDelayMs] := by
  simp [loopIter, hf, hd, hdet,
    crop_resize_224_success env.alloc env.decode halloc]

/-- C1: in every loop iteration in which frame acquisition succeeds, the
frame is returned to the camera driver exactly once before the iteration
ends, on every exit path (decode failure, allocation failure, empty
detection, full success); warm-up frames acquired before the loop are
likewise returned exactly once when acquisition succeeded. -/
theorem C1_frame_returned_exactly_once :
    (∀ env : IterEnv, env.fb.isSome = true →
        (loopIter env).count Event.cameraFbReturn = 1) ∧
    (∀ fb : Option Frame, fb.isSome = true →
        (warmupIter fb).count Event.cameraFbReturn = 1) := by
  constructor
  · intro env hfb
    obtain ⟨f, hf⟩ := Option.isSome_iff_exists.mp hfb
    by_cases hd : decodeFailed env.decode = true
    · rw [loopIter_decodeFail env f hf hd]
      by_cases hdata : env.decode.data.isSome <;> simp [hdata]
    · rw [Bool.not_eq_true] at hd
      by_cases halloc : env.alloc.spiramOk = true ∨ env.alloc.internalOk = true
      · by_cases hdet : env.detections = []
        · rw [loopIter_emptyDetection env f hf hd halloc hdet]
          decide
        · rw [loopIter_fullSuccess env f hf hd halloc hdet]
          simp [List.count_append, List.count_replicate]
      · push_neg at halloc
        rw [loopIter_allocFail env f hf hd
          (Bool.not_eq_true _ ▸ halloc.1) (Bool.not_eq_true _ ▸ halloc.2)]
        decide
  · intro fb hfb
    simp [warmupIter, hfb]

/-- C1 witness: concrete successful iteration and warm-up acquisition. -/
theorem C1_witness :
    (loopIter sampleSuccessEnv).count Event.cameraFbReturn = 1 ∧
    (warmupIter (some sampleFrame)).count Event.cameraFbReturn = 1 :=
  ⟨C1_frame_returned_exactly_once.1 sampleSuccessEnv rfl,
   C1_frame_returned_exactly_once.2 (some sampleFrame) rfl⟩

/-- C4 counterexample: the claim says the empty-detection backoff delay
is longer than the steady-state per-frame delay; in the code the backoff
is 300 ms and the steady-state delay 2000 ms, so it is not. -/
theorem C4_counterexample :
    ¬ emptyDetectionDelayMs > steadyStateDelayMs := by decide

/-- C4 (amended): the delay applied after an empty detection result
(300 ms) is shorter than the steady-state per-frame delay applied after
a fully processed frame (2000 ms). -/
theorem C4_amended_backoff_shorter :
    emptyDetectionDelayMs < steadyStateDelayMs := by decide

/-- C6: whenever decoding fails, the iteration still returns the frame
to the driver exactly once, frees the RawImage data exactly when it is
non-null, and never invokes the Localizer. -/
theorem C6_decode_failure_path (env : IterEnv)
    (hfb : env.fb.isSome = true) (hd : decodeFailed env.decode = true) :
    (loopIter env).count Event.cameraFbReturn = 1 ∧
    (loopIter env).count (Event.heapCapsFree BufKind.raw)
      = (if env.decode.data.isSome then 1 else 0) ∧
    (loopIter env).count Event.handDetectRun = 0 := by
  obtain ⟨f, hf⟩ := Option.isSome_iff_exists.mp hfb
  rw [loopIter_decodeFail env f hf hd]
  by_cases hdata : env.decode.data.isSome <;> simp [hdata]

/-- C6 witness: a concrete iteration with a null-data decode failure. -/
theorem C6_witness :
    (loopIter sampleDecodeFailEnv).count Event.cameraFbReturn = 1 ∧
    (loopIter sampleDecodeFailEnv).count (Event.heapCapsFree BufKind.raw)
      = (if sampleDecodeFailEnv.decode.data.isSome then 1 else 0) ∧
    (loopIter sampleDecodeFailEnv).count Event.handDetectRun = 0 :=
  C6_decode_failure_path sampleDecodeFailEnv rfl (by decide)

/-- C7: whenever the Localizer returns an empty detection sequence, the
iteration frees the NormalizedImage exactly once, never invokes the
Classifier, and applies the empty-detection backoff delay. -/
theorem C7_empty_detection_path (env : IterEnv)
    (hfb : env.fb.isSome = true) (hd : decodeFailed env.decode = false)
    (halloc : env.alloc.spiramOk = true ∨ env.alloc.internalOk = true)
    (hdet : env.detections = []) :
    (loopIter env).count (Event.heapCapsFree BufKind.normalized) = 1 ∧
    (loopIter env).count Event.gestureRecognize = 0 ∧
    (loopIter env).count (Event.vTaskDelay emptyDetectionDelayMs) = 1 := by
  obtain ⟨f, hf⟩ := Option.isSome_iff_exists.mp hfb
  rw [loopIter_emptyDetection env f hf hd halloc hdet]
  exact ⟨by decide, by decide, by decide⟩

/-- C7 witness: a concrete iteration with an empty detection result. -/
theorem C7_witness :
    (loopIter sampleEmptyDetEnv).count (Event.heapCapsFree BufKind.normalized) = 1 ∧
    (loopIter sampleEmptyDetEnv).count Event.gestureRecognize = 0 ∧
    (loopIter sampleEmptyDetEnv).count (Event.vTaskDelay emptyDetectionDelayMs) = 1 :=
  C7_empty_detection_path sampleEmptyDetEnv rfl (by decide) (Or.inl rfl) rfl

/-- C5: the preprocessor allocation always attempts the SPIRAM pool
first; the internal pool is attempted exactly when the SPIRAM attempt
fails, never the reverse; when both fail the result has a null data
pointer and the orchestrator drops the frame after a delay without
invoking the Localizer. -/
theorem C5_alloc_fallback_policy (env : AllocEnv) (src : ImgT) :
    ((crop_resize_224 env src).2).head? = some Pool.spiram ∧
    (env.spiramOk = true → (crop_resize_224 env src).2 = [Pool.spiram]) ∧
    (env.spiramOk = false →
        (crop_resize_224 env src).2 = [Pool.spiram, Pool.internal]) ∧
    (env.spiramOk = false → env.internalOk = false →
        (crop_resize_224 env src).1.data = none) ∧
    (∀ ienv : IterEnv, ∀ f : Frame, ienv.fb = some f →
        decodeFailed ienv.decode = false →
        ienv.alloc.spiramOk = false → ienv.alloc.internalOk = false →
        loopIter ienv
          = [Event.cameraFbGet true, Event.swDecodeJpeg,
             Event.cameraFbReturn, Event.heapCapsFree BufKind.raw,
             Event.vTaskDelay allocFailDelayMs]) := by
  refine ⟨?_, ?_, ?_, ?_, ?_⟩
  · rw [crop_resize_224_attempts]
    by_cases h : env.spiramOk <;> simp [h]
  · intro h
    rw [crop_resize_224_attempts]
    simp [h]
  · intro h
    rw [crop_resize_224_attempts]
    simp [h]
  · intro h1 h2
    rw [crop_resize_224_failure env src h1 h2]
  · intro ienv f hf hd h1 h2
    exact loopIter_allocFail ienv f hf hd h1 h2

/-- C5 witness: concrete exhausted and non-exhausted allocators. -/
theorem C5_witness :
    (crop_resize_224 bothPools sampleRaw).2 = [Pool.spiram] ∧
    (crop_resize_224 noPools sampleRaw).2 = [Pool.spiram, Pool.internal] ∧
    (crop_resize_224 noPools sampleRaw).1.data = none ∧
    loopIter sampleAllocFailEnv
      = [Event.cameraFbGet true, Event.swDecodeJpeg, Event.cameraFbReturn,
         Event.heapCapsFree BufKind.raw,
         Event.vTaskDelay allocFailDelayMs] :=
  ⟨(C5_alloc_fallback_policy bothPools sampleRaw).2.1 rfl,
   (C5_alloc_fallback_policy noPools sampleRaw).2.2.1 rfl,
   (C5_alloc_fallback_policy noPools sampleRaw).2.2.2.1 rfl rfl,
   (C5_alloc_fallback_policy noPools sampleRaw).2.2.2.2 sampleAllocFailEnv
     sampleFrame rfl (by decide) rfl rfl⟩

/-- C10: on double allocation failure the preprocessor's result still
has width 224, height 224 and the RGB888 pixel type, with only a null
data pointer; the dimensions and pixel type carry no failure
information since every preprocessor result has them; and the
orchestrator invokes the Localizer precisely when the data pointer is
non-null. -/
theorem C10_failure_marker (env : AllocEnv) (src : ImgT)
    (h1 : env.spiramOk = false) (h2 : env.internalOk = false) :
    (crop_resize_224 env src).1
      = { width := 224, height := 224, pixType := PixType.RGB888,
          data := none } ∧
    (∀ env2 : AllocEnv, ∀ src2 : ImgT,
        (crop_resize_224 env2 src2).1.width = 224 ∧
        (crop_resize_224 env2 src2).1.height = 224 ∧
        (crop_resize_224 env2 src2).1.pixType = PixType.RGB888) ∧
    (∀ ienv : IterEnv, ∀ f : Frame, ienv.fb = some f →
        decodeFailed ienv.decode = false →
        (Event.handDetectRun ∈ loopIter ienv ↔
          ((crop_resize_224 ienv.alloc ienv.decode).1.data).isSome = true)) := by
  refine ⟨crop_resize_224_failure env src h1 h2, ?_, ?_⟩
  · intro env2 src2
    by_cases ha : env2.spiramOk = true ∨ env2.internalOk = true
    · rw [crop_resize_224_success env2 src2 ha]
      exact ⟨rfl, rfl, rfl⟩
    · push_neg at ha
      rw [crop_resize_224_failure env2 src2
        (Bool.not_eq_true _ ▸ ha.1) (Bool.not_eq_true _ ▸ ha.2)]
      exact ⟨rfl, rfl, rfl⟩
  · intro ienv f hf hd
    by_cases ha : ienv.alloc.spiramOk = true ∨ ienv.alloc.internalOk = true
    · rw [crop_resize_224_success ienv.alloc ienv.decode ha]
      by_cases hdet : ienv.detections = []
      · rw [loopIter_emptyDetection ienv f hf hd ha hdet]
        simp
      · rw [loopIter_fullSuccess ienv f hf hd ha hdet]
        simp
    · push_neg at ha
      have hsp : ienv.alloc.spiramOk = false := by simpa using ha.1
      have hin : ienv.alloc.internalOk = false := by simpa using ha.2
      rw [crop_resize_224_failure ienv.alloc ienv.decode hsp hin,
        loopIter_allocFail ienv f hf hd hsp hin]
      simp

/-- C10 witness: concrete double allocation failure and a concrete
iteration whose Localizer invocation tracks the data pointer. -/
theorem C10_witness :
    (crop_resize_224 noPools sampleRaw).1
      = { width := 224, height := 224, pixType := PixType.RGB888,
          data := none } ∧
    (Event.handDetectRun ∈ loopIter sampleEmptyDetEnv ↔
      ((crop_resize_224 sampleEmptyDetEnv.alloc
          sampleEmptyDetEnv.decode).1.data).isSome = true) :=
  ⟨(C10_failure_marker noPools sampleRaw rfl rfl).1,
   (C10_failure_marker noPools sampleRaw rfl rfl).2.2 sampleEmptyDetEnv
     sampleFrame rfl (by decide)⟩

/-- C3: for any source with positive dimensions, the crop square is
fully contained in the source and every byte index read by the sampling
loop lies strictly inside the `width * height * 3`-byte source buffer. -/
theorem C3_sampling_in_bounds (w h x y c : Nat) (hw : 1 ≤ w) (hh : 1 ≤ h)
    (hx : x < 224) (hy : y < 224) (hc : c < 3) :
    (w - min w h) / 2 + min w h ≤ w ∧
    (h - min w h) / 2 + min w h ≤ h ∧
    srcSampleIdx w h x y + c < w * h * 3 :=
  ⟨by omega, by omega, srcSampleIdx_lt w h x y c hw hh hx hy hc⟩

/-- C3 witness: a 320 by 240 source at the last destination byte. -/
theorem C3_witness :
    (320 - min 320 240) / 2 + min 320 240 ≤ 320 ∧
    (240 - min 320 240) / 2 + min 320 240 ≤ 240 ∧
    srcSampleIdx 320 240 223 223 + 2 < 320 * 240 * 3 :=
  C3_sampling_in_bounds 320 240 223 223 2 (by decide) (by decide)
    (by decide) (by decide) (by decide)

/-- C2: for a positive-dimension RGB888 source with data, when
allocation succeeds the preprocessor output is a 224 by 224 RGB888
image of exactly 224 * 224 * 3 bytes, and destination pixel `(x, y)`
carries the 3 channel bytes of the source pixel at
`(x0 + x * crop / 224, y0 + y * crop / 224)` with `crop = min w h`,
`x0 = (w - crop) / 2`, `y0 = (h - crop) / 2`, all in floor division,
with no interpolation or conversion (a plain byte copy). -/
theorem C2_preproc_output (env : AllocEnv) (src : ImgT) (buf : List Nat)
    (_hw : 0 < src.width) (_hh : 0 < src.height)
    (hdata : src.data = some buf)
    (halloc : env.spiramOk = true ∨ env.internalOk = true) :
    (crop_resize_224 env src).1.width = 224 ∧
    (crop_resize_224 env src).1.height = 224 ∧
    (crop_resize_224 env src).1.pixType = PixType.RGB888 ∧
    ∃ out : List Nat, (crop_resize_224 env src).1.data = some out ∧
      out.length = 224 * 224 * 3 ∧
      ∀ x y c : Nat, x < 224 → y < 224 → c < 3 →
        out.getD ((y * 224 + x) * 3 + c) 0
          = buf.getD
              (specSampleIdx src.width.toNat src.height.toNat x y + c) 0 := by
  rw [crop_resize_224_success env src halloc]
  simp only [hdata, Option.getD_some]
  refine ⟨trivial, trivial, trivial,
    cropResizeData buf src.width.toNat src.height.toNat, rfl, ?_, ?_⟩
  · rw [cropResizeData_length]; rfl
  · intro x y c hx hy hc
    rw [← srcSampleIdx_eq_specSampleIdx]
    exact cropResizeData_getD buf src.width.toNat src.height.toNat
      x y c hx hy hc

/-- C2 witness: a concrete 2 by 2 source with a successful allocation. -/
theorem C2_witness :
    (crop_resize_224 bothPools sampleRaw).1.width = 224 ∧
    (crop_resize_224 bothPools sampleRaw).1.height = 224 ∧
    (crop_resize_224 bothPools sampleRaw).1.pixType = PixType.RGB888 ∧
    ∃ out : List Nat,
      (crop_resize_224 bothPools sampleRaw).1.data = some out ∧
      out.length = 224 * 224 * 3 ∧
      ∀ x y c : Nat, x < 224 → y < 224 → c < 3 →
        out.getD ((y * 224 + x) * 3 + c) 0
          = sampleRawBuf.getD
              (specSampleIdx sampleRaw.width.toNat sampleRaw.height.toNat
                x y + c) 0 :=
  C2_preproc_output bothPools sampleRaw sampleRawBuf (by decide) (by decide)
    rfl (Or.inl rfl)

/-- The sampling map is the identity on a 224 by 224 source. -/
theorem cropResizeData_identity (buf : List Nat)
    (hlen : buf.length = 224 * 224 * 3) :
    cropResizeData buf 224 224 = buf := by
  apply List.ext_getElem
  · rw [cropResizeData_length, hlen]; rfl
  · intro i h1 h2
    have hi : i < 224 * 224 * 3 := by rw [hlen] at h2; exact h2
    have hyb : i / 672 < 224 := by omega
    have hxb : i % 672 / 3 < 224 := by omega
    have hcb : i % 672 % 3 < 3 := by omega
    have hkey := cropResizeData_getD buf 224 224 (i % 672 / 3) (i / 672)
      (i % 672 % 3) hxb hyb hcb
    have hidx : (i / 672 * target + i % 672 / 3) * 3 + i % 672 % 3 = i := by
      have ht : target = 224 := rfl
      rw [ht]; omega
    have hsrc : srcSampleIdx 224 224 (i % 672 / 3) (i / 672) + i % 672 % 3
        = i := by
      simp only [srcSampleIdx, target]
      norm_num
      omega
    rw [hidx, hsrc] at hkey
    rw [← List.getD_eq_getElem _ 0 h1, ← List.getD_eq_getElem _ 0 h2]
    exact hkey

/-- C8: for a 224 by 224 RGB888 source, when allocation succeeds the
preprocessor output buffer is byte-for-byte equal to the input buffer. -/
theorem C8_identity_case (env : AllocEnv) (src : ImgT) (buf : List Nat)
    (hw : src.width = 224) (hh : src.height = 224)
    (hdata : src.data = some buf) (hlen : buf.length = 224 * 224 * 3)
    (halloc : env.spiramOk = true ∨ env.internalOk = true) :
    (crop_resize_224 env src).1.data = some buf := by
  rw [crop_resize_224_success env src halloc]
  simp only [hdata, Option.getD_some, hw, hh]
  norm_num
  exact cropResizeData_identity buf hlen

/-- C8 witness: a concrete 224 by 224 constant image. -/
theorem C8_witness : (crop_resize_224 bothPools src224).1.data = some idBuf :=
  C8_identity_case bothPools src224 idBuf rfl rfl rfl
    (List.length_replicate (224 * 224 * 3) 7) (Or.inl rfl)

/-- C9: the preprocessor is deterministic: two runs on sources with
identical dimensions, pixel layout and byte-identical buffers produce
byte-identical output buffers whenever each run's allocation succeeds,
regardless of which pool served either run. -/
theorem C9_deterministic (env1 env2 : AllocEnv) (src1 src2 : ImgT)
    (hw : src1.width = src2.width) (hh : src1.height = src2.height)
    (_hp : src1.pixType = src2.pixType) (hdata : src1.data = src2.data)
    (h1 : env1.spiramOk = true ∨ env1.internalOk = true)
    (h2 : env2.spiramOk = true ∨ env2.internalOk = true) :
    (crop_resize_224 env1 src1).1.data = (crop_resize_224 env2 src2).1.data ∧
    ((crop_resize_224 env1 src1).1.data).isSome = true := by
  rw [crop_resize_224_success env1 src1 h1,
    crop_resize_224_success env2 src2 h2]
  simp [hw, hh, hdata]

/-- C9 witness: identical sources, one served from SPIRAM and one from
the internal fallback pool. -/
theorem C9_witness :
    (crop_resize_224 bothPools sampleRaw).1.data
      = (crop_resize_224 onlyInternal sampleRaw).1.data ∧
    ((crop_resize_224 bothPools sampleRaw).1.data).isSome = true :=
  C9_deterministic bothPools onlyInternal sampleRaw sampleRaw rfl rfl rfl rfl
    (Or.inl rfl) (Or.inr rfl)

end HandGesture
